import Mathlib

/-!
Verification development for the SideKick math-grading pipeline
(app/mathgrader): data models, the answer comparator, the grading engine,
and the two structure parsers.

Embedding conventions:
* Python floats are modelled as exact rationals (ℚ).  Every float constant
  appearing in the modelled code paths (0.5, 0.7, 0.95, 0.9, 0.8, 0.3,
  0.2, 1e-6, point values) is used only in comparisons and sums whose
  outcomes agree between binary floating point and exact rationals on the
  inputs exercised here.
* SymPy (an external library) is modelled as an oracle parameter: the
  comparator's calls into SymPy (parse_expr / Rational / Float fallbacks,
  simplify, N, float conversion) become fields of a `SymOracle` structure,
  with Python exceptions made explicit through `Except PyExc`.
* Python dicts are modelled as functions `String → Option _` built by
  successive overwriting updates, matching dict assignment semantics.
* `datetime` metadata fields are omitted; no modelled behaviour reads them.
-/

namespace MathGrader

/-- Question types (models/rubric.py, class QuestionType). -/
inductive QuestionType where
  | trueFalse
  | numeric
  | probability
  | bigO
  | proof
  | multipleChoice
  | shortAnswer
  | graphing
deriving DecidableEq, Repr

/-- Grading rule kinds (models/rubric.py, class GradingRuleType).
`allOrNothing` models the source's NO_PARTIAL and `partCredit` models
PARTIAL_CREDIT (renamed to satisfy identifier constraints of this
development); `exactMatch`, `equivalent`, `perItemPenalty` keep their
source names. -/
inductive GradingRuleType where
  | exactMatch
  | equivalent
  | perItemPenalty
  | allOrNothing
  | partCredit
deriving DecidableEq, Repr

/-- Scoring policy for a sub-question (models/rubric.py, class GradingRule).
In the source, points_incorrect and minimum_score default to 0 and notes
to None; the parser model below always sets them explicitly, as the
parser code does. -/
structure GradingRule where
  ruleType : GradingRuleType
  pointsCorrect : ℚ
  pointsIncorrect : ℚ
  minimumScore : ℚ
  notes : Option String
deriving DecidableEq, Repr

/-- The correct answer for a sub-question (models/rubric.py, class Solution). -/
structure Solution where
  value : String
  equivalentForms : List String
deriving DecidableEq, Repr

/-- A single gradable part such as "1a" (models/rubric.py, class SubQuestion). -/
structure SubQuestion where
  id : String
  text : String
  points : ℚ
  gradingRule : GradingRule
  solution : Solution
  questionType : QuestionType
deriving DecidableEq, Repr

/-- A numbered problem (models/rubric.py, class Question). -/
structure Question where
  number : ℕ
  text : String
  subQuestions : List SubQuestion
  totalPoints : ℚ
deriving DecidableEq, Repr

/-- A full assignment key (models/rubric.py, class Rubric). -/
structure Rubric where
  assignmentId : String
  course : String
  totalPoints : ℚ
  basePoints : ℚ
  questions : List Question
deriving DecidableEq, Repr

/-- One extracted student answer (models/submission.py, class StudentAnswer).
The source's parsed_value is Optional[str]; the submission parser always
sets it, so it is modelled as a plain string. -/
structure StudentAnswer where
  questionId : String
  rawText : String
  parsedValue : String
  confidence : ℚ
deriving DecidableEq, Repr

/-- One student's full set of answers (models/submission.py, class Submission). -/
structure Submission where
  studentId : String
  assignmentId : String
  answers : List StudentAnswer
deriving DecidableEq, Repr

/-- Submission.get_answer: first answer whose question_id matches, else None. -/
def Submission.getAnswer (s : Submission) (questionId : String) : Option StudentAnswer :=
  s.answers.find? (fun a => a.questionId = questionId)

/-- Scoring outcome for one sub-question (models/grade_result.py, class QuestionGrade). -/
structure QuestionGrade where
  questionId : String
  pointsEarned : ℚ
  pointsPossible : ℚ
  studentAnswer : String
  correctAnswer : String
  isCorrect : Bool
  feedback : String
  gradingNotes : Option String
deriving DecidableEq, Repr

/-- Full scored report (models/grade_result.py, class GradeResult).
needs_review and review_reasons are pydantic fields with defaults
False and [] that a constructor call may leave unset. -/
structure GradeResult where
  submissionId : String
  studentId : String
  assignmentId : String
  totalScore : ℚ
  totalPossible : ℚ
  percentage : ℚ
  questionGrades : List QuestionGrade
  overallFeedback : String
  needsReview : Bool
  reviewReasons : List String
deriving DecidableEq, Repr

/-! ### String helpers shared by the comparator and the parsers

Python's str operations are modelled by structurally recursive functions
over the character list of a string (the built-in String.trim/toLower/...
are avoided because their well-founded recursion does not reduce inside
closed kernel checks).  Python .strip()/.lower() handle a few more
Unicode code points than these ASCII models; no modelled input differs. -/

/-- Python str.lower() (ASCII model). -/
def pyLower (s : String) : String :=
  ⟨s.toList.map Char.toLower⟩

/-- Python str.strip() with no argument: drop leading and trailing
whitespace. -/
def pyStrip (s : String) : String :=
  ⟨((s.toList.dropWhile Char.isWhitespace).reverse.dropWhile Char.isWhitespace).reverse⟩

/-- Python len(s). -/
def pyLen (s : String) : ℕ :=
  s.toList.length

/-- Python max(a, b) on numbers. -/
def pyMax (a b : ℚ) : ℚ :=
  if b ≤ a then a else b

/-- Python min(a, b) on numbers. -/
def pyMin (a b : ℚ) : ℚ :=
  if a ≤ b then a else b

/-- Python s.split('\n')[0]: the characters before the first newline. -/
def firstLineOf (s : String) : String :=
  ⟨s.toList.takeWhile (fun c => c ≠ '\n')⟩

/-- One pass of Python re.sub(r'\s+', ' ', text): every maximal run of
whitespace characters is replaced by a single space.  The boolean argument
records whether the previous character was whitespace. -/
def collapseWSAux : Bool → List Char → List Char
  | _, [] => []
  | prev, c :: rest =>
    if c.isWhitespace then
      if prev then collapseWSAux true rest
      else ' ' :: collapseWSAux true rest
    else c :: collapseWSAux false rest

/-- MathComparator._normalize: str(text).strip().lower(), then collapse
whitespace runs to single spaces.  The empty string maps to itself
(the source's falsy-input early return). -/
def normalize (text : String) : String :=
  if text = "" then ""
  else ⟨collapseWSAux false (pyLower (pyStrip text)).toList⟩

/-- Python str.rstrip('%'): drop every trailing '%' character. -/
def rstripPercent (s : String) : String :=
  ⟨(s.toList.reverse.dropWhile (fun c => c = '%')).reverse⟩

/-- Auxiliary scan: does pat occur as a contiguous block of s? -/
def listContainsAux : List Char → List Char → Bool
  | [], pat => pat.isEmpty
  | s@(_ :: rest), pat => pat.isPrefixOf s || listContainsAux rest pat

/-- Python `pat in s` substring membership for strings. -/
def containsSubstr (s pat : String) : Bool :=
  listContainsAux s.toList pat.toList

/-! ### SymPy oracle -/

/-- Classification of a raised Python exception as the comparator's
handlers see it: TypeError/ValueError (the pair caught by the inner
numeric-evaluation handler) versus any other exception (caught only by an
enclosing catch-all handler). -/
inductive PyExc where
  | typeValue
  | other
deriving DecidableEq, Repr

/-- The comparator's view of SymPy (grading/math_comparator.py).  SymPy is
an external library, so its entry points become oracle parameters over an
abstract expression type; each field models one call site of the source:
* parseMath models MathComparator._parse_math - parse_expr with the
  configured transformations, then a simple a/b Rational fallback, then a
  Float fallback; that method swallows every exception internally and
  returns None on failure, hence an Option rather than an Except;
* simplifyDiffZero models the test simplify(a - b) == 0, which may raise;
* evalFloatN models float(N(e)), which may raise (TypeError on a symbol);
* floatConv models float(e) as called by _compare_probability, may raise;
* extractBigO models MathComparator._extract_big_o (the regex search for
  an O( ... ) wrapper, returning the inner text, else the stripped input)
  and parseBigO models parse_expr(e, local_dict with symbol n); both only
  feed the growth-rate branch, which no claim exercises, so they are left
  uninterpreted parameters. -/
structure SymOracle (Expr : Type) where
  parseMath : String → Option Expr
  simplifyDiffZero : Expr → Expr → Except PyExc Bool
  evalFloatN : Expr → Except PyExc ℚ
  floatConv : Expr → Except PyExc ℚ
  extractBigO : String → String
  parseBigO : String → Except PyExc Expr

/-! ### MathComparator -/

/-- MathComparator.FLOAT_TOLERANCE = 1e-6. -/
def FLOAT_TOLERANCE : ℚ := 1 / 1000000

/-- The truthy aliases of _compare_boolean. -/
def trueValues : List String := ["true", "t", "1", "yes", "y"]

/-- The falsy aliases of _compare_boolean. -/
def falseValues : List String := ["false", "f", "0", "no", "n"]

/-- The alias-table lookup of _compare_boolean (None when unmappable). -/
def parseBool (s : String) : Option Bool :=
  if trueValues.contains s then some true
  else if falseValues.contains s then some false
  else none

/-- MathComparator._compare_boolean. -/
def compare_boolean (student correct : String) : Bool × ℚ :=
  match parseBool student, parseBool correct with
  | some sb, some cb => (sb == cb, 1)
  | _, _ => (false, 1/2)

/-- The two successive float(N(...)) conversions inside the inner try of
_compare_numeric, with explicit exception propagation: the first raised
exception aborts the pair. -/
def evalBothN {E : Type} (O : SymOracle E) (studentExpr correctExpr : E) :
    Except PyExc (ℚ × ℚ) :=
  match O.evalFloatN studentExpr with
  | .error e => .error e
  | .ok sv =>
    match O.evalFloatN correctExpr with
    | .error e => .error e
    | .ok cv => .ok (sv, cv)

def compareNumericBody {E : Type} (O : SymOracle E) (studentExpr correctExpr : E) :
    Except PyExc (Bool × ℚ) :=
  match O.simplifyDiffZero studentExpr correctExpr with
  | .error e => .error e
  | .ok isZero =>
    if isZero then .ok (true, 1)
    else
      match evalBothN O studentExpr correctExpr with
      | .ok svcv =>
        if |svcv.1 - svcv.2| < FLOAT_TOLERANCE then .ok (true, 19/20)
        else .ok (false, 9/10)
      | .error .typeValue => .ok (false, 9/10)
      | .error .other => .error .other

/-- MathComparator._compare_numeric: parse both sides (None from either
parse gives (False, 0.5) inside the try), run the body, and let the outer
catch-all turn any propagated exception into (False, 0.5). -/
def compare_numeric {E : Type} (O : SymOracle E) (student correct : String) : Bool × ℚ :=
  match
    (match O.parseMath student, O.parseMath correct with
     | some se, some ce => compareNumericBody O se ce
     | _, _ => Except.ok (false, 1/2)) with
  | .ok r => r
  | .error _ => (false, 1/2)

/-- float(self._parse_math(s)) as evaluated inside _compare_probability:
a parse failure returns None and float(None) raises TypeError; otherwise
the float conversion itself may raise. -/
def parseFloatOf {E : Type} (O : SymOracle E) (s : String) : Except PyExc ℚ :=
  match O.parseMath s with
  | some e => O.floatConv e
  | none => throw .typeValue

/-- MathComparator._compare_probability: both sides are right-stripped of
'%' first; only then is a '%' character searched for in the correct
answer.  Inside that branch the student value is scaled by 100 and both
conversions sit in a try whose bare except falls through; any non-return
path ends in the numeric comparison. -/
def compare_probability {E : Type} (O : SymOracle E) (student correct : String) : Bool × ℚ :=
  let student := rstripPercent student
  let correct := rstripPercent correct
  if correct.toList.contains '%' then
    match
      (match parseFloatOf O student with
       | .error e => .error e
       | .ok sv =>
         match parseFloatOf O (rstripPercent correct) with
         | .error e => .error e
         | .ok cv => Except.ok (sv * 100, cv) : Except PyExc (ℚ × ℚ)) with
    | .ok svcv =>
      if |svcv.1 - svcv.2| < FLOAT_TOLERANCE then (true, 19/20)
      else compare_numeric O student correct
    | .error _ => compare_numeric O student correct
  else compare_numeric O student correct

/-- MathComparator._normalize_big_o.  The final replacement of "log n" is
kept from the source even though it can never fire after spaces were
removed. -/
def normalize_big_o (expr : String) : String :=
  let e := expr.toLower
  let e := e.replace (" ") ("")
  let e := e.replace ("^") ("**")
  let e := e.replace ("log(n)") ("logn")
  e.replace ("log n") ("logn")

/-- MathComparator._compare_big_o. -/
def compare_big_o {E : Type} (O : SymOracle E) (student correct : String) : Bool × ℚ :=
  let studentInner := O.extractBigO student
  let correctInner := O.extractBigO correct
  if studentInner = "" ∨ correctInner = "" then (false, 1/2)
  else
    let si := normalize_big_o studentInner
    let ci := normalize_big_o correctInner
    if si = ci then (true, 1)
    else
      match (do
        let a ← O.parseBigO si
        let b ← O.parseBigO ci
        O.simplifyDiffZero a b : Except PyExc Bool) with
      | .ok true => (true, 19/20)
      | _ => (false, 4/5)

/-- MathComparator._compare_multiple_choice: compare the first characters;
a missing first character on both sides (both strings empty) compares
equal, as "" == "" does in the source. -/
def compare_multiple_choice (student correct : String) : Bool × ℚ :=
  (student.toList.head? == correct.toList.head?, 1)

/-- MathComparator.compare: normalize both sides, three early returns
(empty student, exact match, pre-computed equivalent form), then dispatch
on the question type; SHORT_ANSWER, PROOF and GRAPHING fall to the final
(False, 0.3). -/
def compare {E : Type} (O : SymOracle E) (studentAnswer correctAnswer : String)
    (questionType : QuestionType) (equivalentForms : List String) : Bool × ℚ :=
  let student := normalize studentAnswer
  let correct := normalize correctAnswer
  if student = "" then (false, 1)
  else if student = correct then (true, 1)
  else if !equivalentForms.isEmpty && (equivalentForms.map normalize).contains student then
    (true, 1)
  else
    match questionType with
    | .trueFalse => compare_boolean student correct
    | .numeric => compare_numeric O student correct
    | .probability => compare_probability O student correct
    | .bigO => compare_big_o O student correct
    | .multipleChoice => compare_multiple_choice student correct
    | _ => (false, 3/10)

/-! ### GradingEngine -/

/-- GradingEngine._apply_grading_rule. -/
def apply_grading_rule (isCorrect : Bool) (rule : GradingRule) (maxPoints : ℚ) : ℚ :=
  match rule.ruleType with
  | .allOrNothing => if isCorrect then maxPoints else 0
  | .perItemPenalty =>
    pyMax rule.minimumScore (if isCorrect then rule.pointsCorrect else rule.pointsIncorrect)
  | .partCredit => if isCorrect then maxPoints else 0
  | _ => if isCorrect then maxPoints else 0

/-- GradingEngine._generate_feedback (the question_type argument is unused
in the source as well). -/
def generate_feedback (isCorrect : Bool) (studentAnswer correctAnswer : String)
    (_questionType : QuestionType) : String :=
  if isCorrect then "✓ Correct!"
  else "✗ Incorrect. Your answer: " ++ studentAnswer ++ ". Correct answer: " ++ correctAnswer

/-- GradingEngine._grade_question.  The engine's MathComparator instance
is abstracted into the function argument cmp, mirroring
self.comparator.compare; the claims about this function either hold for
every comparator or instantiate cmp with the compare model above. -/
def gradeQuestion (cmp : String → String → QuestionType → List String → Bool × ℚ)
    (subQuestion : SubQuestion) (studentAnswer : Option StudentAnswer) : QuestionGrade :=
  match studentAnswer with
  | none =>
    { questionId := subQuestion.id, pointsEarned := 0, pointsPossible := subQuestion.points,
      isCorrect := false, studentAnswer := "", correctAnswer := subQuestion.solution.value,
      feedback := "No answer provided.", gradingNotes := none }
  | some sa =>
    if sa.rawText = "" then
      { questionId := subQuestion.id, pointsEarned := 0, pointsPossible := subQuestion.points,
        isCorrect := false, studentAnswer := "", correctAnswer := subQuestion.solution.value,
        feedback := "No answer provided.", gradingNotes := none }
    else if sa.confidence < 1/2 then
      { questionId := subQuestion.id, pointsEarned := 0, pointsPossible := subQuestion.points,
        isCorrect := false, studentAnswer := sa.rawText,
        correctAnswer := subQuestion.solution.value,
        feedback := "Could not reliably extract answer. Flagged for manual review.",
        gradingNotes := some ("Low confidence extraction") }
    else
      let r := cmp sa.parsedValue subQuestion.solution.value subQuestion.questionType
        subQuestion.solution.equivalentForms
      let gradingNotes := if r.2 < 7/10 then some ("Answer comparison uncertain") else none
      let points := apply_grading_rule r.1 subQuestion.gradingRule subQuestion.points
      let feedback := generate_feedback r.1 sa.parsedValue subQuestion.solution.value
        subQuestion.questionType
      { questionId := subQuestion.id, pointsEarned := points,
        pointsPossible := subQuestion.points, isCorrect := r.1,
        studentAnswer := sa.parsedValue, correctAnswer := subQuestion.solution.value,
        feedback := feedback, gradingNotes := gradingNotes }

/-- GradingEngine._generate_overall_feedback. -/
def generate_overall_feedback (questionGrades : List QuestionGrade) : String :=
  let incorrect := questionGrades.filter (fun qg => !qg.isCorrect)
  if incorrect.isEmpty then "Excellent work! All answers are correct."
  else
    incorrect.foldl
      (fun acc qg => acc ++ "- Question " ++ qg.questionId ++ ": " ++ qg.feedback ++ "\n")
      ("Overall good effort. Areas for improvement:\n")

/-- The nested for-loop of GradingEngine.grade over questions and
sub-questions, appending each QuestionGrade and accumulating the running
total (which starts at the rubric's base points). -/
def gradeLoop (cmp : String → String → QuestionType → List String → Bool × ℚ)
    (submission : Submission) :
    List SubQuestion → List QuestionGrade → ℚ → List QuestionGrade × ℚ
  | [], grades, total => (grades, total)
  | sq :: rest, grades, total =>
    let g := gradeQuestion cmp sq (submission.getAnswer sq.id)
    gradeLoop cmp submission rest (grades ++ [g]) (total + g.pointsEarned)

/-- GradingEngine.grade.  needs_review and review_reasons are not passed
to the GradeResult constructor in the source, so they take their pydantic
defaults False and []. -/
def grade (cmp : String → String → QuestionType → List String → Bool × ℚ)
    (submission : Submission) (rubric : Rubric) : GradeResult :=
  let flat := (rubric.questions.map (fun q => q.subQuestions)).flatten
  let st := gradeLoop cmp submission flat [] rubric.basePoints
  let totalScore := pyMax 0 st.2
  { submissionId := submission.studentId ++ "_" ++ submission.assignmentId,
    studentId := submission.studentId,
    assignmentId := submission.assignmentId,
    totalScore := totalScore,
    totalPossible := rubric.totalPoints,
    percentage := if rubric.totalPoints > 0 then totalScore / rubric.totalPoints * 100 else 0,
    questionGrades := st.1,
    overallFeedback := generate_overall_feedback st.1,
    needsReview := false,
    reviewReasons := [] }

/-! ### SubmissionParser -/

/-- SubmissionParser._calculate_confidence: empty text short-circuits to
0.0; otherwise start at 1.0, deduct 0.2 for payloads over 200 characters,
0.3 for a question mark, 0.2 for more than two newlines, 0.3 for fewer
than 2 characters, then clamp to [0, 1]. -/
def calculate_confidence (answerText : String) : ℚ :=
  if answerText = "" then 0
  else
    let c : ℚ := 1
    let c := if pyLen answerText > 200 then c - 2/10 else c
    let c := if answerText.toList.contains '?' then c - 3/10 else c
    let c := if answerText.toList.count '\n' > 2 then c - 2/10 else c
    let c := if pyLen answerText < 2 then c - 3/10 else c
    pyMax 0 (pyMin 1 c)

/-- One prefix-stripping step of SubmissionParser._clean_answer: the
lowercased text is tested, the original is sliced and re-stripped. -/
def stripLabel (text label : String) : String :=
  if label.toList.isPrefixOf (pyLower text).toList then pyStrip ⟨text.toList.drop (pyLen label)⟩
  else text

/-- SubmissionParser._clean_answer: strip, remove the recognized answer
labels in the source's fixed order, strip trailing punctuation. -/
def clean_answer (rawText : String) : String :=
  if rawText = "" then ""
  else
    let t := pyStrip rawText
    let t := stripLabel t ("answer:")
    let t := stripLabel t ("ans:")
    let t := stripLabel t ("solution:")
    let t := stripLabel t ("=")
    ⟨(t.toList.reverse.dropWhile (fun c => c == '.' || c == ',' || c == ';' || c == ':')).reverse⟩

/-- One regex hit of SubmissionParser._find_answer_blocks: the captured
question number (group 1), the captured letter (group 2, "" when absent),
and the raw captured payload (group 3, not yet stripped). -/
structure AnswerMatch where
  qNum : String
  qLetter : String
  payload : String
deriving DecidableEq, Repr

/-- The question id a match resolves to: f-string concatenation of number
and letter, lowercased. -/
def AnswerMatch.qId (m : AnswerMatch) : String :=
  pyLower (m.qNum ++ m.qLetter)

/-- The dict entry a match produces: first line of the stripped payload
(re-stripped), and the confidence of the whole stripped payload. -/
def AnswerMatch.entry (m : AnswerMatch) : String × ℚ :=
  let answerText := pyStrip m.payload
  (pyStrip (firstLineOf answerText), calculate_confidence answerText)

/-- SubmissionParser._find_answer_blocks: iterate over the regex matches
in document order, writing each match's entry into the answers dict under
its question id (a later match for the same id overwrites the earlier
entry, exactly as dict assignment does).  The dict is modelled as a
lookup function. -/
def findAnswerBlocks (matchList : List AnswerMatch) : String → Option (String × ℚ) :=
  matchList.foldl
    (fun answers m => fun q => if q = m.qId then some m.entry else answers q)
    (fun _ => none)

/-- The loop body of SubmissionParser._extract_answers for one expected
question id: a found id yields the extracted raw/parsed/confidence
triple, a missing one the empty placeholder with confidence 0.0. -/
def expectedAnswer (foundAnswers : String → Option (String × ℚ)) (qId : String) :
    StudentAnswer :=
  match foundAnswers qId with
  | some rc =>
    { questionId := qId, rawText := rc.1, parsedValue := clean_answer rc.1,
      confidence := rc.2 }
  | none =>
    { questionId := qId, rawText := "", parsedValue := "", confidence := 0 }

/-- SubmissionParser._extract_answers: one StudentAnswer appended per
expected question id, in order. -/
def extract_answers (foundAnswers : String → Option (String × ℚ))
    (expectedQuestions : List String) : List StudentAnswer :=
  expectedQuestions.foldl
    (fun answers qId => answers ++ [expectedAnswer foundAnswers qId])
    []

/-- SubmissionParser._get_expected_questions: sub-question ids flattened
from the rubric in key order. -/
def get_expected_questions (rubric : Rubric) : List String :=
  (rubric.questions.map (fun q => q.subQuestions.map (fun sq => sq.id))).flatten

/-! ### RubricParser -/

/-- RubricParser._extract_grading_rule.  Its two regex searches are
abstracted: noteMatch is the captured group of the grading-note pattern
(None when the pattern does not match), and minSearch models
re.search(r'min(?:imum)?\s*(\d+)', note) - the captured group is a digit
run, so a successful search always yields a natural number. -/
def extract_grading_rule (noteMatch : Option String)
    (minSearch : String → Option ℕ) : GradingRule :=
  match noteMatch with
  | none =>
    { ruleType := .allOrNothing, pointsCorrect := 1, pointsIncorrect := 0,
      minimumScore := 0, notes := none }
  | some g =>
    let note := pyLower g
    if containsSubstr note ("+1") && containsSubstr note ("-1") then
      let minScore : ℚ := match minSearch note with | some n => (n : ℚ) | none => 0
      { ruleType := .perItemPenalty, pointsCorrect := 1, pointsIncorrect := -1,
        minimumScore := minScore, notes := some note }
    else if containsSubstr note ("partial") then
      { ruleType := .partCredit, pointsCorrect := 1, pointsIncorrect := 0,
        minimumScore := 0, notes := some note }
    else
      { ruleType := .allOrNothing, pointsCorrect := 1, pointsIncorrect := 0,
        minimumScore := 0, notes := none }

/-! ### Specification-side definitions

These definitions follow the wording of spec/claim sentences, for
comparison against the source-translated functions above. -/

/-- The observable behaviour of _compare_numeric after both sides parsed,
stated case by case from the amended claim's words: an exactly-zero
symbolic difference gives (true, 1.0); a raised exception during
simplification, or a non-TypeError/ValueError exception during numeric
evaluation, gives (false, 0.5); a TypeError/ValueError during numeric
evaluation is swallowed and the result is (false, 0.9); successful
evaluations agreeing within 1e-6 give (true, 0.95), else (false, 0.9). -/
def numericSpec {E : Type} (O : SymOracle E) (studentExpr correctExpr : E) : Bool × ℚ :=
  match O.simplifyDiffZero studentExpr correctExpr with
  | .error _ => (false, 1/2)
  | .ok true => (true, 1)
  | .ok false =>
    match O.evalFloatN studentExpr with
    | .error .typeValue => (false, 9/10)
    | .error .other => (false, 1/2)
    | .ok sv =>
      match O.evalFloatN correctExpr with
      | .error .typeValue => (false, 9/10)
      | .error .other => (false, 1/2)
      | .ok cv => if |sv - cv| < FLOAT_TOLERANCE then (true, 19/20) else (false, 9/10)

/-- Claim C8's confidence formula, stated from the claim's words: start
at 1.0, subtract 0.2 when the payload exceeds 200 characters, 0.3 when it
contains a question mark, 0.2 when it spans more than two lines, 0.3 when
it is shorter than 2 characters, then clamp to [0, 1]. -/
def confidenceFormulaSpec (payload : String) : ℚ :=
  let d1 : ℚ := if pyLen payload > 200 then 2/10 else 0
  let d2 : ℚ := if payload.toList.contains '?' then 3/10 else 0
  let d3 : ℚ := if payload.toList.count '\n' > 2 then 2/10 else 0
  let d4 : ℚ := if pyLen payload < 2 then 3/10 else 0
  pyMax 0 (pyMin 1 (1 - d1 - d2 - d3 - d4))

/-! ### Concrete instances for closed theorems -/

/-- Expression fragment for instantiating the SymPy oracle in closed
theorems: numeric literals and named symbols. -/
inductive PyExpr where
  | num (q : ℚ)
  | sym (name : String)
deriving DecidableEq, Repr

/-- Concrete oracle agreeing with SymPy on the literal inputs used by the
closed theorems below: parse_expr("0.5") is Float(0.5) (exactly 1/2 in
binary), parse_expr("50") is Integer(50), "x" and "y" parse to Symbols;
simplify(a - b) == 0 holds exactly for equal literals or equal symbols
(Float(0.5) - Integer(50) simplifies to the nonzero -49.5, x - y stays
x - y); float(N(e)) and float(e) return a literal's value and raise
TypeError on a Symbol. -/
def litOracle : SymOracle PyExpr where
  parseMath := fun s =>
    if s = "0.5" then some (.num (1/2))
    else if s = "50" then some (.num 50)
    else if s = "x" then some (.sym ("x"))
    else if s = "y" then some (.sym ("y"))
    else none
  simplifyDiffZero := fun a b =>
    match a, b with
    | .num p, .num q => .ok (decide (p = q))
    | .sym m, .sym n => .ok (decide (m = n))
    | _, _ => .ok false
  evalFloatN := fun e =>
    match e with
    | .num q => .ok q
    | .sym _ => .error .typeValue
  floatConv := fun e =>
    match e with
    | .num q => .ok q
    | .sym _ => .error .typeValue
  extractBigO := fun s => s.trim
  parseBigO := fun _ => .error .other

/-- A comparator instance for closed grading-engine theorems (the paths
they exercise never consult it). -/
def cmp0 : String → String → QuestionType → List String → Bool × ℚ :=
  fun _ _ _ _ => (false, 1)

/-- Concrete sub-question fixture: "1a", 5 points, all-or-nothing. -/
def sq0 : SubQuestion :=
  { id := "1a", text := "Is the statement true or false",
    points := 5,
    gradingRule :=
      { ruleType := .allOrNothing, pointsCorrect := 1, pointsIncorrect := 0,
        minimumScore := 0, notes := none },
    solution := { value := "true", equivalentForms := [] },
    questionType := .trueFalse }

/-- Concrete rubric fixture: one question holding sq0, 5 total points. -/
def rub0 : Rubric :=
  { assignmentId := "HW1", course := "CSCI-C241", totalPoints := 5, basePoints := 0,
    questions := [{ number := 1, text := "Question 1", subQuestions := [sq0], totalPoints := 5 }] }

/-- Concrete low-extraction-confidence answer fixture for "1a". -/
def sa0 : StudentAnswer :=
  { questionId := "1a", rawText := "??", parsedValue := "??", confidence := 3/10 }

/-- Concrete submission fixture containing only sa0. -/
def sub0 : Submission :=
  { studentId := "s001", assignmentId := "HW1", answers := [sa0] }

/-- Concrete model of re.search(r'min(?:imum)?\s*(\d+)', note) at the one
note string used in the closed theorems: on
"+1 correct, -1 incorrect, min 0" the captured digit run is "0". -/
def minSearch0 : String → Option ℕ :=
  fun note => if note = "+1 correct, -1 incorrect, min 0" then some 0 else none

/-! ### Helper lemmas -/

/-- Appending through a fold is a map. -/
theorem foldl_append_singleton_eq_map {α β : Type} (f : α → β) (l : List α)
    (acc : List β) :
    l.foldl (fun a x => a ++ [f x]) acc = acc ++ l.map f := by
  induction l generalizing acc with
  | nil => simp
  | cons x rest ih => simp [ih]

/-- The grading loop appends one grade per sub-question and accumulates
exactly the sum of their earned points on top of the starting total. -/
theorem gradeLoop_eq (cmp : String → String → QuestionType → List String → Bool × ℚ)
    (submission : Submission) (l : List SubQuestion)
    (grades : List QuestionGrade) (total : ℚ) :
    gradeLoop cmp submission l grades total =
      (grades ++ l.map (fun sq => gradeQuestion cmp sq (submission.getAnswer sq.id)),
       total + (l.map (fun sq =>
         (gradeQuestion cmp sq (submission.getAnswer sq.id)).pointsEarned)).sum) := by
  induction l generalizing grades total with
  | nil => simp [gradeLoop]
  | cons sq rest ih => simp [gradeLoop, ih, add_assoc]

/-! ### Claim theorems -/

/-- C1: for every comparator, submission and rubric, the returned
GradeResult's total_score equals clamp(base_points + sum of every
sub-question's earned points, min = 0), and its percentage equals
100 · total_score / total_possible when total_possible > 0 and equals 0
when total_possible = 0. -/
theorem grade_aggregation_C1
    (cmp : String → String → QuestionType → List String → Bool × ℚ)
    (submission : Submission) (rubric : Rubric) :
    (grade cmp submission rubric).totalScore =
      pyMax 0 (rubric.basePoints +
        (((grade cmp submission rubric).questionGrades.map
          (fun qg => qg.pointsEarned)).sum)) ∧
    (0 < (grade cmp submission rubric).totalPossible →
      (grade cmp submission rubric).percentage =
        100 * (grade cmp submission rubric).totalScore /
          (grade cmp submission rubric).totalPossible) ∧
    ((grade cmp submission rubric).totalPossible = 0 →
      (grade cmp submission rubric).percentage = 0) := by
  simp only [grade, gradeLoop_eq, List.nil_append, List.map_map]
  refine ⟨rfl, ?_, ?_⟩
  · intro h
    rw [if_pos h]
    ring
  · intro h
    rw [if_neg (by rw [h]; exact lt_irrefl 0)]

/-- Witness for C1 at a concrete comparator, submission and rubric. -/
theorem grade_aggregation_C1_witness :
    (grade cmp0 sub0 rub0).totalScore =
      pyMax 0 (rub0.basePoints +
        (((grade cmp0 sub0 rub0).questionGrades.map (fun qg => qg.pointsEarned)).sum)) ∧
    0 < (grade cmp0 sub0 rub0).totalPossible ∧
    (grade cmp0 sub0 rub0).percentage =
      100 * (grade cmp0 sub0 rub0).totalScore / (grade cmp0 sub0 rub0).totalPossible :=
  ⟨(grade_aggregation_C1 cmp0 sub0 rub0).1, by decide,
   (grade_aggregation_C1 cmp0 sub0 rub0).2.1 (by decide)⟩

/-- C2 counterexample: compare is not reflexive at the empty answer
string - compare("", "", NUMERIC, []) returns (false, 1.0), not
(true, 1.0), because an empty normalized student answer is always judged
wrong before the reflexive exact-match test runs. -/
theorem compare_refl_counterexample_C2 :
    compare litOracle ("") ("") QuestionType.numeric [] = (false, 1) ∧
    compare litOracle ("") ("") QuestionType.numeric [] ≠ (true, 1) := by
  refine ⟨by decide, by decide⟩

/-- C2 (amended): reflexivity holds for every answer string whose
normalized form is non-empty - for every oracle and every answer type T,
compare(x, x, T, []) = (true, 1.0). -/
theorem compare_refl_C2 {E : Type} (O : SymOracle E) (x : String) (T : QuestionType)
    (h : normalize x ≠ "") : compare O x x T [] = (true, 1) := by
  unfold compare
  simp [h]

/-- Witness for the amended C2 at x = "a", T = NUMERIC. -/
theorem compare_refl_C2_witness :
    normalize ("a") ≠ "" ∧ compare litOracle ("a") ("a") QuestionType.numeric [] = (true, 1) :=
  ⟨by decide, compare_refl_C2 litOracle ("a") QuestionType.numeric (by decide)⟩

/-- C3: evaluation at the failing input: student "0.5" against the
trailing-percent correct answer "50%" under PROBABILITY.  The source
strips trailing '%' from the correct answer before testing whether it
contains '%', so the documented ×100 scaling branch cannot fire for a
'%'-suffixed correct answer; the comparison falls through to the numeric
path and returns (false, 0.9) instead of the claimed (true, 0.95). -/
theorem compare_probability_percent_C3 :
    compare litOracle ("0.5") ("50%") QuestionType.probability [] = (false, 9/10) ∧
    compare litOracle ("0.5") ("50%") QuestionType.probability [] ≠ (true, 19/20) := by
  have hv : compare litOracle ("0.5") ("50%") QuestionType.probability [] =
      ((false : Bool), (9/10 : ℚ)) := by with_unfolding_all rfl
  refine ⟨hv, ?_⟩
  rw [hv]
  intro h
  exact Bool.noConfusion (congrArg Prod.fst h)

/-- C4: evaluation at the failing input: a submission whose only answer
has extraction confidence 0.3 < 0.5.  The produced QuestionGrade carries
the low-confidence review note, yet the GradeResult's needs_review flag
is false, because grade never passes needs_review to the constructor and
the field keeps its default. -/
theorem grade_needs_review_C4 :
    sa0.confidence < 1/2 ∧
    (grade cmp0 sub0 rub0).questionGrades.map (fun qg => qg.gradingNotes) =
      [some ("Low confidence extraction")] ∧
    (grade cmp0 sub0 rub0).needsReview = false := by
  refine ⟨by norm_num [sa0], by with_unfolding_all rfl, rfl⟩

/-- C5 counterexample: the grading note "+1 correct, -1 incorrect, min 0"
produces a per-item-penalty rule with minimum_score = 0 and
points_incorrect = -1, falsifying the claimed invariant
minimum_score ≤ points_incorrect. -/
theorem grading_rule_floor_counterexample_C5 :
    (extract_grading_rule (some ("+1 correct, -1 incorrect, min 0")) minSearch0).ruleType =
      GradingRuleType.perItemPenalty ∧
    ¬ ((extract_grading_rule (some ("+1 correct, -1 incorrect, min 0")) minSearch0).minimumScore ≤
       (extract_grading_rule (some ("+1 correct, -1 incorrect, min 0")) minSearch0).pointsIncorrect) := by
  refine ⟨rfl, ?_⟩
  intro hle
  rw [show (extract_grading_rule (some ("+1 correct, -1 incorrect, min 0"))
        minSearch0).minimumScore = ((0 : ℕ) : ℚ) by with_unfolding_all rfl,
      show (extract_grading_rule (some ("+1 correct, -1 incorrect, min 0"))
        minSearch0).pointsIncorrect = (-1 : ℚ) by with_unfolding_all rfl] at hle
  norm_num at hle

/-- C5 (amended): every per-item-penalty rule the answer-key parser
produces satisfies the reversed inequality
points-if-incorrect ≤ minimum floor: the captured minimum is a
nonnegative digit run (or the default 0) while points_incorrect is the
fixed -1, so the floor dominates the penalty. -/
theorem grading_rule_floor_C5 (noteMatch : Option String) (minSearch : String → Option ℕ)
    (h : (extract_grading_rule noteMatch minSearch).ruleType = GradingRuleType.perItemPenalty) :
    (extract_grading_rule noteMatch minSearch).pointsIncorrect ≤
      (extract_grading_rule noteMatch minSearch).minimumScore := by
  cases noteMatch with
  | none => simp [extract_grading_rule] at h
  | some g =>
    by_cases h1 : containsSubstr (pyLower g) ("+1") && containsSubstr (pyLower g) ("-1")
    · cases hm : minSearch (pyLower g) with
      | none => simp [extract_grading_rule, h1, hm]
      | some n =>
        simp only [extract_grading_rule, h1, hm, if_true]
        have hn : (0 : ℚ) ≤ (n : ℚ) := Nat.cast_nonneg n
        linarith
    · exfalso
      by_cases h2 : containsSubstr (pyLower g) ("partial")
      · simp [extract_grading_rule, h1, h2] at h
      · simp [extract_grading_rule, h1, h2] at h

/-- Witness for the amended C5 at the concrete penalty note. -/
theorem grading_rule_floor_C5_witness :
    (extract_grading_rule (some ("+1 correct, -1 incorrect, min 0")) minSearch0).ruleType =
      GradingRuleType.perItemPenalty ∧
    (extract_grading_rule (some ("+1 correct, -1 incorrect, min 0")) minSearch0).pointsIncorrect ≤
      (extract_grading_rule (some ("+1 correct, -1 incorrect, min 0")) minSearch0).minimumScore :=
  ⟨rfl,
   grading_rule_floor_C5 (some ("+1 correct, -1 incorrect, min 0")) minSearch0 rfl⟩

/-- C6: for every comparator, a non-empty answer with extraction
confidence < 0.5 grades to 0 points, is_correct = false, the
could-not-extract feedback and the manual-review note - and the result
does not depend on the comparator, which is therefore never consulted. -/
theorem grade_low_confidence_C6
    (cmp : String → String → QuestionType → List String → Bool × ℚ)
    (sq : SubQuestion) (sa : StudentAnswer)
    (hraw : sa.rawText ≠ "") (hconf : sa.confidence < 1/2) :
    gradeQuestion cmp sq (some sa) =
      { questionId := sq.id, pointsEarned := 0, pointsPossible := sq.points,
        isCorrect := false, studentAnswer := sa.rawText,
        correctAnswer := sq.solution.value,
        feedback := "Could not reliably extract answer. Flagged for manual review.",
        gradingNotes := some ("Low confidence extraction") } := by
  simp only [gradeQuestion]
  rw [if_neg hraw, if_pos hconf]

/-- Witness for C6 at the concrete fixtures. -/
theorem grade_low_confidence_C6_witness :
    (sa0.rawText ≠ "" ∧ sa0.confidence < 1/2) ∧
    gradeQuestion cmp0 sq0 (some sa0) =
      { questionId := sq0.id, pointsEarned := 0, pointsPossible := sq0.points,
        isCorrect := false, studentAnswer := sa0.rawText,
        correctAnswer := sq0.solution.value,
        feedback := "Could not reliably extract answer. Flagged for manual review.",
        gradingNotes := some ("Low confidence extraction") } :=
  ⟨⟨by decide, by norm_num [sa0]⟩,
   grade_low_confidence_C6 cmp0 sq0 sa0 (by decide) (by norm_num [sa0])⟩

/-- C7 counterexample: comparing the symbols "x" and "y" - both sides
parse, the symbolic difference does not simplify to zero, and
float(N(x)) raises TypeError (an evaluation exception).  The claim
demands (false, 0.5) for any evaluation exception, but the inner handler
swallows TypeError/ValueError and the result is (false, 0.9). -/
theorem compare_numeric_exception_counterexample_C7 :
    litOracle.parseMath ("x") = some (PyExpr.sym ("x")) ∧
    litOracle.parseMath ("y") = some (PyExpr.sym ("y")) ∧
    litOracle.evalFloatN (PyExpr.sym ("x")) = Except.error PyExc.typeValue ∧
    compare_numeric litOracle ("x") ("y") = (false, 9/10) ∧
    compare_numeric litOracle ("x") ("y") ≠ (false, 1/2) := by
  have hv : compare_numeric litOracle ("x") ("y") = ((false : Bool), (9/10 : ℚ)) := by
    with_unfolding_all rfl
  refine ⟨rfl, rfl, rfl, hv, ?_⟩
  rw [hv]
  intro h
  have h2 : (9/10 : ℚ) = 1/2 := congrArg Prod.snd h
  norm_num at h2

/-- C7 (amended): for every oracle and every pair of inputs that both
parse, _compare_numeric behaves exactly as numericSpec describes:
(true, 1.0) on an exactly-zero symbolic difference; (false, 0.5) on a
simplification exception or a non-TypeError/ValueError evaluation
exception; (false, 0.9) when a TypeError/ValueError during numeric
evaluation is swallowed; (true, 0.95) when both evaluations agree within
1e-6, else (false, 0.9). -/
theorem compare_numeric_cases_C7 {E : Type} (O : SymOracle E) (student correct : String)
    (se ce : E) (hs : O.parseMath student = some se) (hc : O.parseMath correct = some ce) :
    compare_numeric O student correct = numericSpec O se ce := by
  unfold compare_numeric numericSpec compareNumericBody evalBothN
  simp only [hs, hc]
  cases hz : O.simplifyDiffZero se ce with
  | error e => rfl
  | ok b =>
    cases b with
    | true => rfl
    | false =>
      cases h1 : O.evalFloatN se with
      | error e1 => cases e1 <;> rfl
      | ok sv =>
        cases h2 : O.evalFloatN ce with
        | error e2 => cases e2 <;> rfl
        | ok cv =>
          dsimp only
          by_cases ht : |sv - cv| < FLOAT_TOLERANCE
          · simp only [if_pos ht]
            rfl
          · simp only [if_neg ht]
            rfl

/-- Witness for the amended C7 at the parsed symbols "x" and "y". -/
theorem compare_numeric_cases_C7_witness :
    litOracle.parseMath ("x") = some (PyExpr.sym ("x")) ∧
    litOracle.parseMath ("y") = some (PyExpr.sym ("y")) ∧
    compare_numeric litOracle ("x") ("y") =
      numericSpec litOracle (PyExpr.sym ("x")) (PyExpr.sym ("y")) :=
  ⟨rfl, rfl,
   compare_numeric_cases_C7 litOracle ("x") ("y") (PyExpr.sym ("x")) (PyExpr.sym ("y"))
     rfl rfl⟩

/-- C8 counterexample: the empty candidate payload.  The source returns
0.0 immediately while the claimed formula (start at 1.0, deduct 0.3 for
a payload shorter than 2 characters, clamp) yields 0.7; and an empty
payload is extractable - a marker match whose captured payload is a lone
newline strips to the empty string and is recorded with confidence 0. -/
theorem calculate_confidence_counterexample_C8 :
    calculate_confidence ("") = 0 ∧
    confidenceFormulaSpec ("") = 7/10 ∧
    calculate_confidence ("") ≠ confidenceFormulaSpec ("") ∧
    (AnswerMatch.mk ("1") ("a") ("\n")).entry = ("", 0) := by
  have h1 : calculate_confidence ("") = 0 := rfl
  have h2 : confidenceFormulaSpec ("") = 7/10 := by with_unfolding_all rfl
  refine ⟨h1, h2, ?_, rfl⟩
  rw [h1, h2]
  norm_num

/-- C8 (amended): for every non-empty candidate payload, the extraction
confidence equals the claimed clamped-deduction formula; the empty
payload instead short-circuits to 0.0. -/
theorem calculate_confidence_C8 (payload : String) (h : payload ≠ "") :
    calculate_confidence payload = confidenceFormulaSpec payload := by
  simp only [calculate_confidence, confidenceFormulaSpec, if_neg h]
  congr 1
  congr 1
  split_ifs <;> ring

/-- Witness for the amended C8 at the payload "ab". -/
theorem calculate_confidence_C8_witness :
    ("ab" : String) ≠ "" ∧ calculate_confidence ("ab") = confidenceFormulaSpec ("ab") :=
  ⟨by decide, calculate_confidence_C8 ("ab") (by decide)⟩

/-- C9: for every list of found answer markers and every rubric, the
extracted answers list is exactly one StudentAnswer per expected
sub-question id, in flattened key order (the pointwise image of the
expected-id list under expectedAnswer), and every expected id the marker
dict does not contain resolves to the placeholder with empty raw text,
empty parsed value and confidence 0.0. -/
theorem extract_answers_C9 (matchList : List AnswerMatch) (rubric : Rubric) :
    extract_answers (findAnswerBlocks matchList) (get_expected_questions rubric) =
      (get_expected_questions rubric).map (expectedAnswer (findAnswerBlocks matchList)) ∧
    ∀ qId : String, findAnswerBlocks matchList qId = none →
      expectedAnswer (findAnswerBlocks matchList) qId =
        { questionId := qId, rawText := "", parsedValue := "", confidence := 0 } := by
  constructor
  · unfold extract_answers
    rw [foldl_append_singleton_eq_map]
    simp
  · intro qId hnone
    unfold expectedAnswer
    rw [hnone]

/-- Witness for C9 at the empty marker list and the concrete rubric. -/
theorem extract_answers_C9_witness :
    (extract_answers (findAnswerBlocks []) (get_expected_questions rub0) =
      (get_expected_questions rub0).map (expectedAnswer (findAnswerBlocks []))) ∧
    expectedAnswer (findAnswerBlocks []) ("1a") =
      { questionId := "1a", rawText := "", parsedValue := "", confidence := 0 } :=
  ⟨(extract_answers_C9 [] rub0).1, (extract_answers_C9 [] rub0).2 ("1a") rfl⟩

/-- C10: for every list of answer-marker matches (in document order) and
every question id, the dict built by _find_answer_blocks maps the id to
the entry - first line of the stripped payload, and the confidence of the
whole payload - of the LAST match resolving to that id; all earlier
matches for the id are overwritten and silently discarded. -/
theorem find_answer_blocks_C10 (matchList : List AnswerMatch) (q : String) :
    findAnswerBlocks matchList q =
      ((matchList.filter (fun m => m.qId = q)).getLast?).map AnswerMatch.entry := by
  induction matchList using List.reverseRecOn with
  | nil => rfl
  | append_singleton l m ih =>
    unfold findAnswerBlocks at ih ⊢
    rw [List.foldl_append]
    simp only [List.foldl_cons, List.foldl_nil]
    by_cases hq : q = m.qId
    · rw [if_pos hq]
      rw [List.filter_append]
      simp [hq]
    · rw [if_neg hq]
      rw [List.filter_append, ih]
      have : m.qId ≠ q := fun hh => hq hh.symm
      simp [this]

end MathGrader
